import Mathlib

/-!
Verification development for the pinball physics core in
`src/GameFolder/main.c`. The C program works on 32-bit floats; the
embedding models the numeric values as rationals, and passes the
irrational library calls (`sqrtf`, `cosf`, `sinf`, the `DEG2RAD`
constant) as explicit parameters whose defining properties become
hypotheses of the theorems that need them. Field names and control
flow follow the C source line by line.
-/

namespace Pinball

/-- Vec2f from main.c: a 2D float vector. -/
structure Vec2f where
  x : ℚ
  y : ℚ
deriving DecidableEq, Repr

/-- Ball from main.c: position, radius and velocity. -/
structure Ball where
  x : ℚ
  y : ℚ
  radius : ℚ
  velocityX : ℚ
  velocityY : ℚ
deriving DecidableEq, Repr

/-- Flipper from main.c (the render-only `color` field is omitted). -/
structure Flipper where
  pivotPoint : Vec2f
  length : ℚ
  width : ℚ
  currentAngle : ℚ
  restingAngle : ℚ
  activeAngle : ℚ
  rotationSpeedDeg : ℚ
  isLeftFlipper : Bool
deriving DecidableEq, Repr

/-- Planet from main.c (the `texture` field is render-only and omitted). -/
structure Planet where
  x : ℚ
  y : ℚ
  radius : ℚ
deriving DecidableEq, Repr

/-- Projection parameter clamping of main.c lines 61-62: the two
sequential guards clamp the parameter into the closed interval [0, 1]. -/
def clamp01 (projectionParameter : ℚ) : ℚ :=
  if projectionParameter < 0 then 0
  else if projectionParameter > 1 then 1
  else projectionParameter

/-- ClosestPointOnSegment from main.c, lines 49-69: returns the clamped
projection parameter together with the closest point (the C version
returns the parameter and writes the point through a pointer). -/
def ClosestPointOnSegment (segmentStart segmentEnd point : Vec2f) : ℚ × Vec2f :=
  let segmentDirX := segmentEnd.x - segmentStart.x
  let segmentDirY := segmentEnd.y - segmentStart.y
  let pointDirX := point.x - segmentStart.x
  let pointDirY := point.y - segmentStart.y
  let segmentLengthSquared := segmentDirX * segmentDirX + segmentDirY * segmentDirY
  let projectionParameter : ℚ :=
    if segmentLengthSquared > 1/100000000 then
      (pointDirX * segmentDirX + pointDirY * segmentDirY) / segmentLengthSquared
    else 0
  let clamped := clamp01 projectionParameter
  (clamped,
   ⟨segmentStart.x + segmentDirX * clamped, segmentStart.y + segmentDirY * clamped⟩)

/-- CircleSegmentCollision from main.c, lines 71-78. -/
def CircleSegmentCollision (segmentStart segmentEnd : Vec2f) (ball : Ball) : Bool :=
  let closestPoint := (ClosestPointOnSegment segmentStart segmentEnd ⟨ball.x, ball.y⟩).2
  let deltaX := ball.x - closestPoint.x
  let deltaY := ball.y - closestPoint.y
  decide (deltaX * deltaX + deltaY * deltaY ≤ ball.radius * ball.radius)

/-- ReflectVelocity from main.c, lines 80-86: reflect the velocity about
the (assumed unit) normal, then damp it by the bounce factor. -/
def ReflectVelocity (ball : Ball) (normalX normalY bounceFactor : ℚ) : Ball :=
  let dotProduct := ball.velocityX * normalX + ball.velocityY * normalY
  let reflectedX := ball.velocityX - 2 * dotProduct * normalX
  let reflectedY := ball.velocityY - 2 * dotProduct * normalY
  { ball with velocityX := reflectedX * bounceFactor,
              velocityY := reflectedY * bounceFactor }

/-- SeparateCircleFromSegment from main.c, lines 88-103. The square root
is supplied as the function parameter `sqrtq` (the C code calls `sqrtf`). -/
def SeparateCircleFromSegment (sqrtq : ℚ → ℚ) (ball : Ball)
    (segmentStart segmentEnd : Vec2f) : Ball :=
  let closestPoint := (ClosestPointOnSegment segmentStart segmentEnd ⟨ball.x, ball.y⟩).2
  let deltaX := ball.x - closestPoint.x
  let deltaY := ball.y - closestPoint.y
  let rawDistance := sqrtq (deltaX * deltaX + deltaY * deltaY)
  let distance := if rawDistance < 1/100000 then 1/100000 else rawDistance
  if distance < ball.radius then
    let normalX := deltaX / distance
    let normalY := deltaY / distance
    { ball with x := closestPoint.x + normalX * ball.radius,
                y := closestPoint.y + normalY * ball.radius }
  else ball

/-- Screen width constant from main.c, line 117. -/
def SCREEN_WIDTH : ℚ := 600

/-- Screen height constant from main.c, line 117. -/
def SCREEN_HEIGHT : ℚ := 900

/-- Initial ball of main.c, line 134: position (460, 450), radius 14,
zero velocity. -/
def ballInit : Ball := ⟨460, 450, 14, 0, 0⟩

/-- Wall bounce factor from main.c, line 154 (0.7). -/
def WALL_BOUNCE_FACTOR : ℚ := 7/10

/-- Planet bounce factor from main.c, line 155 (0.85). -/
def PLANET_BOUNCE_FACTOR : ℚ := 17/20

/-- Flipper bounce factor from main.c, line 156 (0.90). -/
def FLIPPER_BOUNCE_FACTOR : ℚ := 9/10

/-- Flipper impulse strength from main.c, line 157. -/
def FLIPPER_IMPULSE_STRENGTH : ℚ := 280

/-- Flipper velocity transfer coefficient from main.c, line 158 (0.5). -/
def FLIPPER_VELOCITY_TRANSFER : ℚ := 1/2

/-- Left wall response from main.c, lines 196-199. -/
def leftWallBounce (ball : Ball) : Ball :=
  if ball.x - ball.radius < 0 then
    { ball with x := ball.radius,
                velocityX := ball.velocityX * (-WALL_BOUNCE_FACTOR) }
  else ball

/-- Right wall response from main.c, lines 200-203. -/
def rightWallBounce (ball : Ball) : Ball :=
  if ball.x + ball.radius > SCREEN_WIDTH then
    { ball with x := SCREEN_WIDTH - ball.radius,
                velocityX := ball.velocityX * (-WALL_BOUNCE_FACTOR) }
  else ball

/-- Top wall response from main.c, lines 204-207. -/
def topWallBounce (ball : Ball) : Ball :=
  if ball.y - ball.radius < 0 then
    { ball with y := ball.radius,
                velocityY := ball.velocityY * (-WALL_BOUNCE_FACTOR) }
  else ball

/-- Screen boundary responses of one substep, main.c lines 196-207,
applied in source order. -/
def wallCollisions (ball : Ball) : Ball :=
  topWallBounce (rightWallBounce (leftWallBounce ball))

/-- Drop check from main.c, lines 209-215: past the bottom margin the
ball is placed at (300, 450) with zero velocity and the score is reset. -/
def dropCheck (ball : Ball) (score : ℤ) : Ball × ℤ :=
  if ball.y > SCREEN_HEIGHT + 100 then
    ({ ball with x := 300, y := 450, velocityX := 0, velocityY := 0 }, 0)
  else (ball, score)

/-- Which of the three flipper contact branches of main.c lines 231-328
fired, modelling the `hasCollided` flag together with the branch that
set it (`none` models `hasCollided == false`). -/
inductive ContactKind where
  | tip
  | shaft
  | pivot
deriving DecidableEq, Repr

/-- Cap radius of a flipper, main.c line 240: half the width. -/
def capRadius (f : Flipper) : ℚ := f.width * (1/2)

/-- Flipper end position, main.c lines 236-239; `cosAngle` and `sinAngle`
stand for `cosf(currentAngle)` and `sinf(currentAngle)`. -/
def flipperEndPos (f : Flipper) (cosAngle sinAngle : ℚ) : Vec2f :=
  ⟨f.pivotPoint.x + f.length * cosAngle, f.pivotPoint.y + f.length * sinAngle⟩

/-- Signed angular velocity of an actuated flipper, main.c lines 255-256
(and 288-289): the rotation speed in radians, signed by the direction of
the current angle relative to the resting angle. `deg2rad` stands for
the raylib constant `DEG2RAD`. -/
def angularVelocity (deg2rad : ℚ) (f : Flipper) : ℚ :=
  let angularDirection : ℚ := if f.currentAngle - f.restingAngle > 0 then 1 else -1
  angularDirection * f.rotationSpeedDeg * deg2rad

/-- Tip-cap contact resolution, main.c lines 246-270 (without the guard
condition, which the caller tests): impulse plus velocity transfer when
actuated, reflection otherwise, then reposition; awards the base score. -/
def tipContactUpdate (sqrtq : ℚ → ℚ) (deg2rad : ℚ) (f : Flipper)
    (cosAngle sinAngle : ℚ) (active : Bool) (base : ℤ) (dt : ℚ) (ball : Ball) :
    Ball × ℤ :=
  let flipperEnd := flipperEndPos f cosAngle sinAngle
  let deltaXToTip := ball.x - flipperEnd.x
  let deltaYToTip := ball.y - flipperEnd.y
  let rawDistanceToTip := sqrtq (deltaXToTip * deltaXToTip + deltaYToTip * deltaYToTip)
  let distanceToTip := if rawDistanceToTip < 1/100000 then 1/100000 else rawDistanceToTip
  let normalX := deltaXToTip / distanceToTip
  let normalY := deltaYToTip / distanceToTip
  let ball1 :=
    if active then
      let av := angularVelocity deg2rad f
      let tipLinearVelocityX := -av * (flipperEnd.y - f.pivotPoint.y)
      let tipLinearVelocityY := av * (flipperEnd.x - f.pivotPoint.x)
      { ball with
        velocityX := ball.velocityX + normalX * FLIPPER_IMPULSE_STRENGTH * dt
          + tipLinearVelocityX * FLIPPER_VELOCITY_TRANSFER,
        velocityY := ball.velocityY + normalY * FLIPPER_IMPULSE_STRENGTH * dt
          + tipLinearVelocityY * FLIPPER_VELOCITY_TRANSFER }
    else ReflectVelocity ball normalX normalY FLIPPER_BOUNCE_FACTOR
  ({ ball1 with x := flipperEnd.x + normalX * (ball.radius + capRadius f),
                y := flipperEnd.y + normalY * (ball.radius + capRadius f) },
   base)

/-- Shaft-segment contact resolution, main.c lines 272-303 (without the
guard condition): impulse plus velocity transfer at the closest point
when actuated, reflection otherwise, then reposition; awards the base
score interpolated by the projection parameter and truncated to int. -/
def shaftContactUpdate (sqrtq : ℚ → ℚ) (deg2rad : ℚ) (f : Flipper)
    (cosAngle sinAngle : ℚ) (active : Bool) (base : ℤ) (dt : ℚ) (ball : Ball) :
    Ball × ℤ :=
  let flipperEnd := flipperEndPos f cosAngle sinAngle
  let projection := ClosestPointOnSegment f.pivotPoint flipperEnd ⟨ball.x, ball.y⟩
  let segmentParameter := projection.1
  let closestPoint := projection.2
  let rawNormalX := ball.x - closestPoint.x
  let rawNormalY := ball.y - closestPoint.y
  let rawNormalDistance := sqrtq (rawNormalX * rawNormalX + rawNormalY * rawNormalY)
  let normalDistance := if rawNormalDistance < 1/100000 then 1/100000 else rawNormalDistance
  let normalX := rawNormalX / normalDistance
  let normalY := rawNormalY / normalDistance
  let ball1 :=
    if active then
      let av := angularVelocity deg2rad f
      let contactLinearVelocityX := -av * (closestPoint.y - f.pivotPoint.y)
      let contactLinearVelocityY := av * (closestPoint.x - f.pivotPoint.x)
      { ball with
        velocityX := ball.velocityX + normalX * FLIPPER_IMPULSE_STRENGTH * dt
          + contactLinearVelocityX * FLIPPER_VELOCITY_TRANSFER,
        velocityY := ball.velocityY + normalY * FLIPPER_IMPULSE_STRENGTH * dt
          + contactLinearVelocityY * FLIPPER_VELOCITY_TRANSFER }
    else ReflectVelocity ball normalX normalY FLIPPER_BOUNCE_FACTOR
  ({ ball1 with x := closestPoint.x + normalX * ball.radius,
                y := closestPoint.y + normalY * ball.radius },
   Int.floor ((base : ℚ) * (1/2 + segmentParameter * (1/2))))

/-- Pivot-cap contact resolution, main.c lines 305-327 (without the guard
condition): impulse only when actuated (the code adds no velocity-transfer
term here), reflection otherwise, then reposition; awards half the base
score with C integer division. -/
def pivotContactUpdate (sqrtq : ℚ → ℚ) (f : Flipper)
    (active : Bool) (base : ℤ) (dt : ℚ) (ball : Ball) : Ball × ℤ :=
  let deltaXToPivot := ball.x - f.pivotPoint.x
  let deltaYToPivot := ball.y - f.pivotPoint.y
  let rawDistanceToPivot := sqrtq (deltaXToPivot * deltaXToPivot + deltaYToPivot * deltaYToPivot)
  let distanceToPivot := if rawDistanceToPivot < 1/100000 then 1/100000 else rawDistanceToPivot
  let normalX := deltaXToPivot / distanceToPivot
  let normalY := deltaYToPivot / distanceToPivot
  let ball1 :=
    if active then
      { ball with
        velocityX := ball.velocityX + normalX * FLIPPER_IMPULSE_STRENGTH * dt,
        velocityY := ball.velocityY + normalY * FLIPPER_IMPULSE_STRENGTH * dt }
    else ReflectVelocity ball normalX normalY FLIPPER_BOUNCE_FACTOR
  ({ ball1 with x := f.pivotPoint.x + normalX * (ball.radius + capRadius f),
                y := f.pivotPoint.y + normalY * (ball.radius + capRadius f) },
   base / 2)

/-- Guard condition of the tip-cap branch, main.c line 246: the distance
from the ball to the flipper end is below ball radius plus cap radius. -/
def tipHit (sqrtq : ℚ → ℚ) (f : Flipper) (cosAngle sinAngle : ℚ) (ball : Ball) : Prop :=
  let flipperEnd := flipperEndPos f cosAngle sinAngle
  let deltaXToTip := ball.x - flipperEnd.x
  let deltaYToTip := ball.y - flipperEnd.y
  sqrtq (deltaXToTip * deltaXToTip + deltaYToTip * deltaYToTip) < ball.radius + capRadius f

instance (sqrtq : ℚ → ℚ) (f : Flipper) (cosAngle sinAngle : ℚ) (ball : Ball) :
    Decidable (tipHit sqrtq f cosAngle sinAngle ball) := by
  unfold tipHit; infer_instance

/-- Guard condition of the shaft branch, main.c line 272. -/
def shaftHit (f : Flipper) (cosAngle sinAngle : ℚ) (ball : Ball) : Prop :=
  CircleSegmentCollision f.pivotPoint (flipperEndPos f cosAngle sinAngle) ball = true

instance (f : Flipper) (cosAngle sinAngle : ℚ) (ball : Ball) :
    Decidable (shaftHit f cosAngle sinAngle ball) := by
  unfold shaftHit; infer_instance

/-- Guard condition of the pivot-cap branch, main.c line 310. -/
def pivotHit (sqrtq : ℚ → ℚ) (f : Flipper) (ball : Ball) : Prop :=
  let deltaXToPivot := ball.x - f.pivotPoint.x
  let deltaYToPivot := ball.y - f.pivotPoint.y
  sqrtq (deltaXToPivot * deltaXToPivot + deltaYToPivot * deltaYToPivot)
    < ball.radius + capRadius f

instance (sqrtq : ℚ → ℚ) (f : Flipper) (ball : Ball) :
    Decidable (pivotHit sqrtq f ball) := by
  unfold pivotHit; infer_instance

/-- Contact normal of the tip-cap branch, main.c lines 247-249: the
offset from the flipper end to the ball, divided by the distance floored
at 1e-5. -/
def tipNormal (sqrtq : ℚ → ℚ) (f : Flipper) (cosAngle sinAngle : ℚ) (ball : Ball) :
    ℚ × ℚ :=
  let flipperEnd := flipperEndPos f cosAngle sinAngle
  let deltaXToTip := ball.x - flipperEnd.x
  let deltaYToTip := ball.y - flipperEnd.y
  let rawDistanceToTip := sqrtq (deltaXToTip * deltaXToTip + deltaYToTip * deltaYToTip)
  let distanceToTip := if rawDistanceToTip < 1/100000 then 1/100000 else rawDistanceToTip
  (deltaXToTip / distanceToTip, deltaYToTip / distanceToTip)

/-- Contact normal of the shaft branch, main.c lines 277-282. -/
def shaftNormal (sqrtq : ℚ → ℚ) (f : Flipper) (cosAngle sinAngle : ℚ) (ball : Ball) :
    ℚ × ℚ :=
  let flipperEnd := flipperEndPos f cosAngle sinAngle
  let closestPoint := (ClosestPointOnSegment f.pivotPoint flipperEnd ⟨ball.x, ball.y⟩).2
  let rawNormalX := ball.x - closestPoint.x
  let rawNormalY := ball.y - closestPoint.y
  let rawNormalDistance := sqrtq (rawNormalX * rawNormalX + rawNormalY * rawNormalY)
  let normalDistance := if rawNormalDistance < 1/100000 then 1/100000 else rawNormalDistance
  (rawNormalX / normalDistance, rawNormalY / normalDistance)

/-- Contact point of the shaft branch, main.c lines 273-275: the closest
point of the ball center on the flipper segment. -/
def shaftContactPoint (f : Flipper) (cosAngle sinAngle : ℚ) (ball : Ball) : Vec2f :=
  (ClosestPointOnSegment f.pivotPoint (flipperEndPos f cosAngle sinAngle)
    ⟨ball.x, ball.y⟩).2

/-- Contact normal of the pivot-cap branch, main.c lines 311-313. -/
def pivotNormal (sqrtq : ℚ → ℚ) (f : Flipper) (ball : Ball) : ℚ × ℚ :=
  let deltaXToPivot := ball.x - f.pivotPoint.x
  let deltaYToPivot := ball.y - f.pivotPoint.y
  let rawDistanceToPivot := sqrtq (deltaXToPivot * deltaXToPivot + deltaYToPivot * deltaYToPivot)
  let distanceToPivot := if rawDistanceToPivot < 1/100000 then 1/100000 else rawDistanceToPivot
  (deltaXToPivot / distanceToPivot, deltaYToPivot / distanceToPivot)

/-- Per-flipper contact cascade of one substep, main.c lines 231-328,
with the `hasCollided` flag threaded through the three stages exactly as
in the source (enriched to record which branch set it). Returns the
updated ball, the score increment, and the contact record. -/
def resolveFlipper (sqrtq : ℚ → ℚ) (deg2rad : ℚ) (f : Flipper)
    (cosAngle sinAngle : ℚ) (active : Bool) (base : ℤ) (dt : ℚ) (ball : Ball) :
    Ball × ℤ × Option ContactKind :=
  let stage1 : Ball × ℤ × Option ContactKind :=
    if tipHit sqrtq f cosAngle sinAngle ball then
      let r := tipContactUpdate sqrtq deg2rad f cosAngle sinAngle active base dt ball
      (r.1, r.2, some ContactKind.tip)
    else (ball, 0, none)
  let stage2 : Ball × ℤ × Option ContactKind :=
    if stage1.2.2 = none ∧ shaftHit f cosAngle sinAngle stage1.1 then
      let r := shaftContactUpdate sqrtq deg2rad f cosAngle sinAngle active base dt stage1.1
      (r.1, stage1.2.1 + r.2, some ContactKind.shaft)
    else stage1
  if stage2.2.2 = none ∧ pivotHit sqrtq f stage2.1 then
    let r := pivotContactUpdate sqrtq f active base dt stage2.1
    (r.1, stage2.2.1 + r.2, some ContactKind.pivot)
  else stage2

/-- Base score values of the two flippers, main.c line 229: 10 for the
left flipper (index 0), 15 for the right flipper (index 1). -/
def flipperBaseScore : Fin 2 → ℤ := fun i => if i = 0 then 10 else 15

/-- Planet collision resolution for one planet, main.c lines 331-347. -/
def resolvePlanet (sqrtq : ℚ → ℚ) (planet : Planet) (ball : Ball) : Ball × ℤ :=
  let deltaX := ball.x - planet.x
  let deltaY := ball.y - planet.y
  let distance := sqrtq (deltaX * deltaX + deltaY * deltaY)
  let minimumDistance := ball.radius + planet.radius
  if distance < minimumDistance ∧ distance > 1/100000 then
    let normalX := deltaX / distance
    let normalY := deltaY / distance
    let ball1 := ReflectVelocity ball normalX normalY PLANET_BOUNCE_FACTOR
    ({ ball1 with x := planet.x + normalX * minimumDistance,
                  y := planet.y + normalY * minimumDistance }, 5)
  else (ball, 0)

/-- Angle easing toward a target, main.c lines 173-179 (and 181-187):
move by `step` toward the target, clamped so the target is never crossed. -/
def easeAngle (currentAngle targetAngle step : ℚ) : ℚ :=
  if currentAngle < targetAngle then
    let advanced := currentAngle + step
    if advanced > targetAngle then targetAngle else advanced
  else if currentAngle > targetAngle then
    let advanced := currentAngle - step
    if advanced < targetAngle then targetAngle else advanced
  else currentAngle

/-- One frame of flipper kinematics, main.c lines 168-187: the target is
the active angle while the input is held, else the resting angle; the
step is the rotation speed in radians times the frame time. -/
def flipperFrameAngle (restingAngle activeAngle rotationSpeedRad : ℚ)
    (currentAngle : ℚ) (inputHeld : Bool) (frameTime : ℚ) : ℚ :=
  easeAngle currentAngle (if inputHeld then activeAngle else restingAngle)
    (rotationSpeedRad * frameTime)

/-- Flipper angle after a sequence of frames, each a pair of the input
state and the frame time, starting from the resting angle. -/
def flipperAngleRun (restingAngle activeAngle rotationSpeedRad : ℚ)
    (frames : List (Bool × ℚ)) : ℚ :=
  frames.foldl
    (fun currentAngle fr =>
      flipperFrameAngle restingAngle activeAngle rotationSpeedRad currentAngle fr.1 fr.2)
    restingAngle

/-- Squared distance from a point to the closed segment, the measure used
by the spec's separation property (the collision test of main.c lines
71-78 compares exactly this quantity with the squared radius). -/
def distSqToSegment (segmentStart segmentEnd point : Vec2f) : ℚ :=
  let closestPoint := (ClosestPointOnSegment segmentStart segmentEnd point).2
  (point.x - closestPoint.x) * (point.x - closestPoint.x)
    + (point.y - closestPoint.y) * (point.y - closestPoint.y)

/-- Reachable score values: 0 initially (main.c line 150); each flipper
or planet resolution adds its score increment (with the base values of
main.c line 229); the drop check resets to 0 (main.c lines 209-215). -/
inductive ScoreReachable : ℤ → Prop where
  | init : ScoreReachable 0
  | flipperContact (s : ℤ) (sqrtq : ℚ → ℚ) (deg2rad : ℚ) (f : Flipper)
      (cosAngle sinAngle : ℚ) (active : Bool) (i : Fin 2) (dt : ℚ) (ball : Ball) :
      ScoreReachable s →
      ScoreReachable
        (s + (resolveFlipper sqrtq deg2rad f cosAngle sinAngle active
          (flipperBaseScore i) dt ball).2.1)
  | planetContact (s : ℤ) (sqrtq : ℚ → ℚ) (planet : Planet) (ball : Ball) :
      ScoreReachable s → ScoreReachable (s + (resolvePlanet sqrtq planet ball).2)
  | drop (s : ℤ) (ball : Ball) :
      ScoreReachable s → ScoreReachable (dropCheck ball s).2

/-! Theorems. -/

/-- Concrete dropped ball used for the C2 inputs: past the bottom margin
with prior score 50. -/
def c2Ball : Ball := ⟨460, 1001, 14, 3, 4⟩

/-- C2 counterexample: the drop reset places the ball at x = 300, while
the ball's configured spawn position (main.c line 134) has x = 460, so
the reset position is not the configured spawn position. -/
theorem drop_reset_x_differs_from_spawn :
    c2Ball.y > SCREEN_HEIGHT + 100
    ∧ (dropCheck c2Ball 50).1.x = 300
    ∧ ballInit.x = 460
    ∧ (dropCheck c2Ball 50).1.x ≠ ballInit.x := by
  norm_num [c2Ball, dropCheck, SCREEN_HEIGHT, ballInit]

/-- C2 (amended): whenever the ball's y-coordinate exceeds the screen
height plus 100, the ball is repositioned to the fixed reset coordinates
(300, 450) — which differ from the configured initial ball position
(460, 450) — both velocity components are zeroed, and the score is reset
to 0 regardless of its prior value. -/
theorem drop_reset_fixed_coordinates (ball : Ball) (score : ℤ)
    (h : ball.y > SCREEN_HEIGHT + 100) :
    (dropCheck ball score).1.x = 300
    ∧ (dropCheck ball score).1.y = 450
    ∧ (dropCheck ball score).1.velocityX = 0
    ∧ (dropCheck ball score).1.velocityY = 0
    ∧ (dropCheck ball score).1.radius = ball.radius
    ∧ (dropCheck ball score).2 = 0 := by
  unfold dropCheck
  rw [if_pos h]
  exact ⟨rfl, rfl, rfl, rfl, rfl, rfl⟩

/-- Witness for the amended C2 theorem at the concrete dropped ball. -/
theorem drop_reset_fixed_coordinates_witness :
    c2Ball.y > SCREEN_HEIGHT + 100
    ∧ ((dropCheck c2Ball 50).1.x = 300
      ∧ (dropCheck c2Ball 50).1.y = 450
      ∧ (dropCheck c2Ball 50).1.velocityX = 0
      ∧ (dropCheck c2Ball 50).1.velocityY = 0
      ∧ (dropCheck c2Ball 50).1.radius = c2Ball.radius
      ∧ (dropCheck c2Ball 50).2 = 0) :=
  ⟨by norm_num [c2Ball, SCREEN_HEIGHT], drop_reset_fixed_coordinates c2Ball 50
    (by norm_num [c2Ball, SCREEN_HEIGHT])⟩

/-- C6: ReflectVelocity sets the velocity to
bounceFactor × (v − 2 (v·n) n), leaves position and radius unchanged,
and when the incoming velocity is c·n for a unit normal n the outgoing
squared speed is (bounceFactor·c)² while the incoming squared speed is
c², so the outgoing speed is exactly bounceFactor × |v|. -/
theorem reflect_velocity_spec (ball : Ball) (normalX normalY bounceFactor : ℚ) :
    ((ReflectVelocity ball normalX normalY bounceFactor).velocityX
        = (ball.velocityX
            - 2 * (ball.velocityX * normalX + ball.velocityY * normalY) * normalX)
          * bounceFactor
      ∧ (ReflectVelocity ball normalX normalY bounceFactor).velocityY
        = (ball.velocityY
            - 2 * (ball.velocityX * normalX + ball.velocityY * normalY) * normalY)
          * bounceFactor)
    ∧ ((ReflectVelocity ball normalX normalY bounceFactor).x = ball.x
      ∧ (ReflectVelocity ball normalX normalY bounceFactor).y = ball.y
      ∧ (ReflectVelocity ball normalX normalY bounceFactor).radius = ball.radius)
    ∧ (∀ c : ℚ, normalX * normalX + normalY * normalY = 1 →
        ball.velocityX = c * normalX → ball.velocityY = c * normalY →
        (ReflectVelocity ball normalX normalY bounceFactor).velocityX ^ 2
            + (ReflectVelocity ball normalX normalY bounceFactor).velocityY ^ 2
          = (bounceFactor * c) ^ 2
        ∧ ball.velocityX ^ 2 + ball.velocityY ^ 2 = c ^ 2) := by
  refine ⟨⟨rfl, rfl⟩, ⟨rfl, rfl, rfl⟩, ?_⟩
  intro c h1 h2 h3
  constructor
  · show ((ball.velocityX - 2 * (ball.velocityX * normalX + ball.velocityY * normalY)
        * normalX) * bounceFactor) ^ 2
      + ((ball.velocityY - 2 * (ball.velocityX * normalX + ball.velocityY * normalY)
        * normalY) * bounceFactor) ^ 2 = (bounceFactor * c) ^ 2
    rw [h2, h3]
    linear_combination
      (bounceFactor ^ 2 * c ^ 2
        * (4 * (normalX * normalX + normalY * normalY) ^ 2 + 1)) * h1
  · rw [h2, h3]
    linear_combination c ^ 2 * h1

/-- Witness ball for C6: velocity (3, 4) is purely along the unit normal
(3/5, 4/5) with c = 5. -/
def c6Ball : Ball := ⟨0, 0, 14, 3, 4⟩

/-- Witness for the C6 theorem at a concrete ball and unit normal. -/
theorem reflect_velocity_spec_witness :
    (3/5 : ℚ) * (3/5) + (4/5) * (4/5) = 1
    ∧ c6Ball.velocityX = 5 * (3/5)
    ∧ c6Ball.velocityY = 5 * (4/5)
    ∧ ((ReflectVelocity c6Ball (3/5) (4/5) (1/2)).velocityX ^ 2
          + (ReflectVelocity c6Ball (3/5) (4/5) (1/2)).velocityY ^ 2
        = ((1/2 : ℚ) * 5) ^ 2
      ∧ c6Ball.velocityX ^ 2 + c6Ball.velocityY ^ 2 = (5 : ℚ) ^ 2) :=
  ⟨by norm_num, by norm_num [c6Ball], by norm_num [c6Ball],
    (reflect_velocity_spec c6Ball (3/5) (4/5) (1/2)).2.2 5 (by norm_num)
      (by norm_num [c6Ball]) (by norm_num [c6Ball])⟩

/-- Concrete ball overlapping the left wall for the C7 inputs. -/
def c7Ball : Ball := ⟨-5, 100, 14, -30, 40⟩

/-- C7: a ball overlapping the left wall (x − radius < 0) is repositioned
to x = radius and its horizontal velocity is multiplied by −0.7 (sign
flip, magnitude scaled by the wall bounce factor); the y-position,
vertical velocity and radius are unchanged by this wall response. -/
theorem left_wall_response (ball : Ball) (h : ball.x - ball.radius < 0) :
    (leftWallBounce ball).x = ball.radius
    ∧ (leftWallBounce ball).velocityX = ball.velocityX * (-WALL_BOUNCE_FACTOR)
    ∧ (leftWallBounce ball).y = ball.y
    ∧ (leftWallBounce ball).velocityY = ball.velocityY
    ∧ (leftWallBounce ball).radius = ball.radius := by
  unfold leftWallBounce
  rw [if_pos h]
  exact ⟨rfl, rfl, rfl, rfl, rfl⟩

/-- Witness for the C7 theorem at a concrete overlapping ball. -/
theorem left_wall_response_witness :
    c7Ball.x - c7Ball.radius < 0
    ∧ ((leftWallBounce c7Ball).x = c7Ball.radius
      ∧ (leftWallBounce c7Ball).velocityX = c7Ball.velocityX * (-WALL_BOUNCE_FACTOR)
      ∧ (leftWallBounce c7Ball).y = c7Ball.y
      ∧ (leftWallBounce c7Ball).velocityY = c7Ball.velocityY
      ∧ (leftWallBounce c7Ball).radius = c7Ball.radius) :=
  ⟨by norm_num [c7Ball], left_wall_response c7Ball (by norm_num [c7Ball])⟩

/-- C9: SeparateCircleFromSegment changes only the position fields of the
ball; both velocity components and the radius are returned unchanged,
for every square-root function, ball and segment. -/
theorem separate_preserves_velocity (sqrtq : ℚ → ℚ) (ball : Ball)
    (segmentStart segmentEnd : Vec2f) :
    (SeparateCircleFromSegment sqrtq ball segmentStart segmentEnd).velocityX
      = ball.velocityX
    ∧ (SeparateCircleFromSegment sqrtq ball segmentStart segmentEnd).velocityY
      = ball.velocityY
    ∧ (SeparateCircleFromSegment sqrtq ball segmentStart segmentEnd).radius
      = ball.radius := by
  unfold SeparateCircleFromSegment
  dsimp only
  split <;> split <;> exact ⟨rfl, rfl, rfl⟩

/-- Single easing step stays between the current angle and the target:
the update never crosses the target and never retreats behind the
current angle, provided the step is nonnegative. -/
theorem easeAngle_between (currentAngle targetAngle step : ℚ) (hstep : 0 ≤ step) :
    min currentAngle targetAngle ≤ easeAngle currentAngle targetAngle step
    ∧ easeAngle currentAngle targetAngle step ≤ max currentAngle targetAngle := by
  unfold easeAngle
  dsimp only
  split_ifs with h1 h2 h3 h4 <;>
    exact ⟨by linarith [min_le_left currentAngle targetAngle,
             min_le_right currentAngle targetAngle],
           by linarith [le_max_left currentAngle targetAngle,
             le_max_right currentAngle targetAngle]⟩

/-- Folding the per-frame kinematics keeps the angle inside the closed
interval spanned by the resting and active angles, from any start inside
that interval. -/
theorem flipperRun_mem_aux (restingAngle activeAngle rotationSpeedRad : ℚ)
    (hspeed : 0 ≤ rotationSpeedRad) (frames : List (Bool × ℚ))
    (hframes : ∀ p ∈ frames, 0 ≤ p.2) (c : ℚ)
    (hlo : min restingAngle activeAngle ≤ c)
    (hhi : c ≤ max restingAngle activeAngle) :
    min restingAngle activeAngle
      ≤ frames.foldl
          (fun currentAngle fr =>
            flipperFrameAngle restingAngle activeAngle rotationSpeedRad
              currentAngle fr.1 fr.2) c
    ∧ frames.foldl
        (fun currentAngle fr =>
          flipperFrameAngle restingAngle activeAngle rotationSpeedRad
            currentAngle fr.1 fr.2) c
      ≤ max restingAngle activeAngle := by
  induction frames generalizing c with
  | nil => exact ⟨hlo, hhi⟩
  | cons p ps ih =>
    simp only [List.foldl_cons]
    have hstep : 0 ≤ rotationSpeedRad * p.2 :=
      mul_nonneg hspeed (hframes p (List.mem_cons_self p ps))
    have hmem := easeAngle_between c (if p.1 then activeAngle else restingAngle)
      (rotationSpeedRad * p.2) hstep
    have htlo : min restingAngle activeAngle
        ≤ (if p.1 then activeAngle else restingAngle) := by
      split_ifs
      · exact min_le_right _ _
      · exact min_le_left _ _
    have hthi : (if p.1 then activeAngle else restingAngle)
        ≤ max restingAngle activeAngle := by
      split_ifs
      · exact le_max_right _ _
      · exact le_max_left _ _
    refine ih (fun q hq => hframes q (List.mem_cons_of_mem p hq)) _ ?_ ?_
    · calc min restingAngle activeAngle
          ≤ min c (if p.1 then activeAngle else restingAngle) := le_min hlo htlo
        _ ≤ _ := hmem.1
    · calc flipperFrameAngle restingAngle activeAngle rotationSpeedRad c p.1 p.2
          ≤ max c (if p.1 then activeAngle else restingAngle) := hmem.2
        _ ≤ max restingAngle activeAngle := max_le hhi hthi

/-- C5: across any sequence of frames with nonnegative frame times (and
nonnegative rotation speed), the flipper angle starting at the resting
angle stays in the closed interval spanned by the resting and active
angles, and a single easing update never moves the angle past the
target nor behind the current angle. -/
theorem flipper_angle_within_range (restingAngle activeAngle rotationSpeedRad : ℚ)
    (hspeed : 0 ≤ rotationSpeedRad) (frames : List (Bool × ℚ))
    (hframes : ∀ p ∈ frames, 0 ≤ p.2) :
    (min restingAngle activeAngle
        ≤ flipperAngleRun restingAngle activeAngle rotationSpeedRad frames
      ∧ flipperAngleRun restingAngle activeAngle rotationSpeedRad frames
        ≤ max restingAngle activeAngle)
    ∧ (∀ currentAngle targetAngle step : ℚ, 0 ≤ step →
        min currentAngle targetAngle ≤ easeAngle currentAngle targetAngle step
        ∧ easeAngle currentAngle targetAngle step ≤ max currentAngle targetAngle) := by
  refine ⟨?_, fun c t s hs => easeAngle_between c t s hs⟩
  unfold flipperAngleRun
  exact flipperRun_mem_aux restingAngle activeAngle rotationSpeedRad hspeed frames
    hframes restingAngle (min_le_left _ _) (le_max_left _ _)

/-- Witness for the C5 theorem on a concrete two-frame input sequence,
with a large first frame time that overshoots without clamping. -/
theorem flipper_angle_within_range_witness :
    (0 : ℚ) ≤ 8
    ∧ (∀ p ∈ [((true : Bool), (1/2 : ℚ)), ((false : Bool), (1/4 : ℚ))], 0 ≤ p.2)
    ∧ ((min (1 : ℚ) (-3)
          ≤ flipperAngleRun 1 (-3) 8 [(true, 1/2), (false, 1/4)]
        ∧ flipperAngleRun 1 (-3) 8 [(true, 1/2), (false, 1/4)]
          ≤ max (1 : ℚ) (-3))
      ∧ (∀ currentAngle targetAngle step : ℚ, 0 ≤ step →
          min currentAngle targetAngle ≤ easeAngle currentAngle targetAngle step
          ∧ easeAngle currentAngle targetAngle step ≤ max currentAngle targetAngle)) :=
  ⟨by norm_num, by norm_num,
    flipper_angle_within_range 1 (-3) 8 (by norm_num)
      [(true, 1/2), (false, 1/4)] (by norm_num)⟩

/-- First-match characterization of the per-flipper cascade: the
sequentially threaded `hasCollided` flag makes the three stages resolve
exactly the first contact whose guard holds on the incoming ball state,
and no later stage runs. -/
theorem resolveFlipper_eq (sqrtq : ℚ → ℚ) (deg2rad : ℚ) (f : Flipper)
    (cosAngle sinAngle : ℚ) (active : Bool) (base : ℤ) (dt : ℚ) (ball : Ball) :
    resolveFlipper sqrtq deg2rad f cosAngle sinAngle active base dt ball =
      if tipHit sqrtq f cosAngle sinAngle ball then
        ((tipContactUpdate sqrtq deg2rad f cosAngle sinAngle active base dt ball).1,
         (tipContactUpdate sqrtq deg2rad f cosAngle sinAngle active base dt ball).2,
         some ContactKind.tip)
      else if shaftHit f cosAngle sinAngle ball then
        ((shaftContactUpdate sqrtq deg2rad f cosAngle sinAngle active base dt ball).1,
         (shaftContactUpdate sqrtq deg2rad f cosAngle sinAngle active base dt ball).2,
         some ContactKind.shaft)
      else if pivotHit sqrtq f ball then
        ((pivotContactUpdate sqrtq f active base dt ball).1,
         (pivotContactUpdate sqrtq f active base dt ball).2,
         some ContactKind.pivot)
      else (ball, 0, none) := by
  by_cases h1 : tipHit sqrtq f cosAngle sinAngle ball <;>
    by_cases h2 : shaftHit f cosAngle sinAngle ball <;>
      by_cases h3 : pivotHit sqrtq f ball <;>
        simp [resolveFlipper, h1, h2, h3]

/-- C8: per flipper and substep the cascade resolves at most one contact,
testing tip cap first, then the shaft segment only if the tip missed,
then the pivot cap only if both missed; once a branch resolves, the
later branches for that flipper do not run, so the outcome equals the
first matching branch applied to the incoming state. -/
theorem flipper_contact_priority (sqrtq : ℚ → ℚ) (deg2rad : ℚ) (f : Flipper)
    (cosAngle sinAngle : ℚ) (active : Bool) (base : ℤ) (dt : ℚ) (ball : Ball) :
    resolveFlipper sqrtq deg2rad f cosAngle sinAngle active base dt ball =
      if tipHit sqrtq f cosAngle sinAngle ball then
        ((tipContactUpdate sqrtq deg2rad f cosAngle sinAngle active base dt ball).1,
         (tipContactUpdate sqrtq deg2rad f cosAngle sinAngle active base dt ball).2,
         some ContactKind.tip)
      else if shaftHit f cosAngle sinAngle ball then
        ((shaftContactUpdate sqrtq deg2rad f cosAngle sinAngle active base dt ball).1,
         (shaftContactUpdate sqrtq deg2rad f cosAngle sinAngle active base dt ball).2,
         some ContactKind.shaft)
      else if pivotHit sqrtq f ball then
        ((pivotContactUpdate sqrtq f active base dt ball).1,
         (pivotContactUpdate sqrtq f active base dt ball).2,
         some ContactKind.pivot)
      else (ball, 0, none) :=
  resolveFlipper_eq sqrtq deg2rad f cosAngle sinAngle active base dt ball

/-- C1: for every contact resolved while the flipper is actuated, the
ball velocity gains an impulse along the contact normal scaled by the
impulse strength (280) times the substep time, plus the flipper's
angular velocity crossed with the vector from the pivot to the contact
point (the cap center for tip contacts, the closest point for shaft
contacts, and the pivot itself — a zero vector, hence a vanishing
transfer term — for pivot-cap contacts), scaled by the transfer
coefficient 0.5. -/
theorem flipper_active_contact_impulse (sqrtq : ℚ → ℚ) (deg2rad : ℚ) (f : Flipper)
    (cosAngle sinAngle : ℚ) (base : ℤ) (dt : ℚ) (ball : Ball) :
    (tipHit sqrtq f cosAngle sinAngle ball →
      (resolveFlipper sqrtq deg2rad f cosAngle sinAngle true base dt ball).1.velocityX
        = ball.velocityX
          + (tipNormal sqrtq f cosAngle sinAngle ball).1 * FLIPPER_IMPULSE_STRENGTH * dt
          + (-(angularVelocity deg2rad f)
              * ((flipperEndPos f cosAngle sinAngle).y - f.pivotPoint.y))
            * FLIPPER_VELOCITY_TRANSFER
      ∧ (resolveFlipper sqrtq deg2rad f cosAngle sinAngle true base dt ball).1.velocityY
        = ball.velocityY
          + (tipNormal sqrtq f cosAngle sinAngle ball).2 * FLIPPER_IMPULSE_STRENGTH * dt
          + (angularVelocity deg2rad f
              * ((flipperEndPos f cosAngle sinAngle).x - f.pivotPoint.x))
            * FLIPPER_VELOCITY_TRANSFER)
    ∧ (¬ tipHit sqrtq f cosAngle sinAngle ball →
       shaftHit f cosAngle sinAngle ball →
      (resolveFlipper sqrtq deg2rad f cosAngle sinAngle true base dt ball).1.velocityX
        = ball.velocityX
          + (shaftNormal sqrtq f cosAngle sinAngle ball).1 * FLIPPER_IMPULSE_STRENGTH * dt
          + (-(angularVelocity deg2rad f)
              * ((shaftContactPoint f cosAngle sinAngle ball).y - f.pivotPoint.y))
            * FLIPPER_VELOCITY_TRANSFER
      ∧ (resolveFlipper sqrtq deg2rad f cosAngle sinAngle true base dt ball).1.velocityY
        = ball.velocityY
          + (shaftNormal sqrtq f cosAngle sinAngle ball).2 * FLIPPER_IMPULSE_STRENGTH * dt
          + (angularVelocity deg2rad f
              * ((shaftContactPoint f cosAngle sinAngle ball).x - f.pivotPoint.x))
            * FLIPPER_VELOCITY_TRANSFER)
    ∧ (¬ tipHit sqrtq f cosAngle sinAngle ball →
       ¬ shaftHit f cosAngle sinAngle ball →
       pivotHit sqrtq f ball →
      (resolveFlipper sqrtq deg2rad f cosAngle sinAngle true base dt ball).1.velocityX
        = ball.velocityX
          + (pivotNormal sqrtq f ball).1 * FLIPPER_IMPULSE_STRENGTH * dt
          + (-(angularVelocity deg2rad f) * (f.pivotPoint.y - f.pivotPoint.y))
            * FLIPPER_VELOCITY_TRANSFER
      ∧ (resolveFlipper sqrtq deg2rad f cosAngle sinAngle true base dt ball).1.velocityY
        = ball.velocityY
          + (pivotNormal sqrtq f ball).2 * FLIPPER_IMPULSE_STRENGTH * dt
          + (angularVelocity deg2rad f * (f.pivotPoint.x - f.pivotPoint.x))
            * FLIPPER_VELOCITY_TRANSFER) := by
  refine ⟨?_, ?_, ?_⟩
  · intro h1
    rw [resolveFlipper_eq, if_pos h1]
    constructor <;>
      simp [tipContactUpdate, tipNormal, flipperEndPos, angularVelocity]
  · intro h1 h2
    rw [resolveFlipper_eq, if_neg h1, if_pos h2]
    constructor <;>
      simp [shaftContactUpdate, shaftNormal, shaftContactPoint, flipperEndPos,
        angularVelocity]
  · intro h1 h2 h3
    rw [resolveFlipper_eq, if_neg h1, if_neg h2, if_pos h3]
    constructor <;>
      simp [pivotContactUpdate, pivotNormal, angularVelocity]

/-- Concrete flipper for the C1 inputs: at its resting angle, with the
angle functions evaluated as cos = 1, sin = 0, so the tip is at
(280, 750). -/
def c1Flipper : Flipper := ⟨⟨200, 750⟩, 80, 15, 0, 0, -1, 480, true⟩

/-- Concrete square root for the C1 inputs: the tip-distance argument is
441 with exact root 21. -/
def c1Sqrt : ℚ → ℚ := fun q => if q = 441 then 21 else 0

/-- Concrete ball resting against the tip cap for the C1 inputs:
distance 21 from the tip, below 14 + 7.5. -/
def c1Ball : Ball := ⟨301, 750, 14, 0, 0⟩

/-- Witness for the C1 theorem: an actuated tip-cap contact at concrete
inputs. -/
theorem flipper_active_contact_impulse_witness :
    tipHit c1Sqrt c1Flipper 1 0 c1Ball
    ∧ ((resolveFlipper c1Sqrt (1/60) c1Flipper 1 0 true 15 (1/360) c1Ball).1.velocityX
        = c1Ball.velocityX
          + (tipNormal c1Sqrt c1Flipper 1 0 c1Ball).1 * FLIPPER_IMPULSE_STRENGTH * (1/360)
          + (-(angularVelocity (1/60) c1Flipper)
              * ((flipperEndPos c1Flipper 1 0).y - c1Flipper.pivotPoint.y))
            * FLIPPER_VELOCITY_TRANSFER
      ∧ (resolveFlipper c1Sqrt (1/60) c1Flipper 1 0 true 15 (1/360) c1Ball).1.velocityY
        = c1Ball.velocityY
          + (tipNormal c1Sqrt c1Flipper 1 0 c1Ball).2 * FLIPPER_IMPULSE_STRENGTH * (1/360)
          + (angularVelocity (1/60) c1Flipper
              * ((flipperEndPos c1Flipper 1 0).x - c1Flipper.pivotPoint.x))
            * FLIPPER_VELOCITY_TRANSFER) :=
  ⟨by norm_num [tipHit, flipperEndPos, capRadius, c1Sqrt, c1Flipper, c1Ball],
   (flipper_active_contact_impulse c1Sqrt (1/60) c1Flipper 1 0 15 (1/360) c1Ball).1
     (by norm_num [tipHit, flipperEndPos, capRadius, c1Sqrt, c1Flipper, c1Ball])⟩

/-- Concrete flipper for the C3 inputs, same geometry as for C1. -/
def c3Flipper : Flipper := ⟨⟨200, 750⟩, 80, 15, 0, 0, -1, 480, false⟩

/-- Concrete square root for the C3 inputs: the shaft normal distance
argument is 64 (root 8), the tip distance argument is 6464 (root about
80.4, modelled as 402/5 — any value above 21.5 keeps the tip branch
cold). -/
def c3Sqrt : ℚ → ℚ := fun q => if q = 64 then 8 else if q = 6464 then 402/5 else 0

/-- Concrete ball touching the shaft at the pivot end (projection
parameter 0) for the C3 inputs. -/
def c3Ball : Ball := ⟨200, 742, 14, 0, 0⟩

/-- C3 counterexample: a right-flipper (base 15) shaft contact at
projection parameter t = 0 awards 7 points, while the claim's formula
base × (0.5 + 0.5·t) gives 7.5 — the code truncates the interpolated
value to an integer. -/
theorem shaft_score_truncated :
    (resolveFlipper c3Sqrt 0 c3Flipper 1 0 false 15 (1/360) c3Ball).2.2
      = some ContactKind.shaft
    ∧ (resolveFlipper c3Sqrt 0 c3Flipper 1 0 false 15 (1/360) c3Ball).2.1 = 7
    ∧ (ClosestPointOnSegment c3Flipper.pivotPoint (flipperEndPos c3Flipper 1 0)
        ⟨c3Ball.x, c3Ball.y⟩).1 = 0
    ∧ (15 : ℚ) * (1/2 + 0 * (1/2)) ≠ (7 : ℚ) := by
  norm_num [resolveFlipper, tipHit, shaftHit, pivotHit, shaftContactUpdate,
    CircleSegmentCollision, ClosestPointOnSegment, clamp01, flipperEndPos, capRadius,
    c3Sqrt, c3Flipper, c3Ball, angularVelocity, ReflectVelocity, FLIPPER_BOUNCE_FACTOR,
    Option.some_ne_none, Int.floor_eq_iff]

/-- C3 (amended): a tip-cap contact awards the flipper's full base value
(10 left, 15 right), a shaft contact at projection parameter t awards
the floor (integer truncation) of base × (0.5 + 0.5·t), and a pivot-cap
contact awards base divided by 2 with integer division (5 for the left
flipper, 7 — not 7.5 — for the right). -/
theorem flipper_contact_scores (sqrtq : ℚ → ℚ) (deg2rad : ℚ) (f : Flipper)
    (cosAngle sinAngle : ℚ) (active : Bool) (i : Fin 2) (dt : ℚ) (ball : Ball) :
    (tipHit sqrtq f cosAngle sinAngle ball →
      (resolveFlipper sqrtq deg2rad f cosAngle sinAngle active
          (flipperBaseScore i) dt ball).2.1
        = flipperBaseScore i)
    ∧ (¬ tipHit sqrtq f cosAngle sinAngle ball → shaftHit f cosAngle sinAngle ball →
      (resolveFlipper sqrtq deg2rad f cosAngle sinAngle active
          (flipperBaseScore i) dt ball).2.1
        = Int.floor ((flipperBaseScore i : ℚ)
            * (1/2 + (ClosestPointOnSegment f.pivotPoint (flipperEndPos f cosAngle sinAngle)
                ⟨ball.x, ball.y⟩).1 * (1/2))))
    ∧ (¬ tipHit sqrtq f cosAngle sinAngle ball → ¬ shaftHit f cosAngle sinAngle ball →
       pivotHit sqrtq f ball →
      (resolveFlipper sqrtq deg2rad f cosAngle sinAngle active
          (flipperBaseScore i) dt ball).2.1
        = flipperBaseScore i / 2) := by
  refine ⟨?_, ?_, ?_⟩
  · intro h1
    rw [resolveFlipper_eq, if_pos h1]
    simp [tipContactUpdate]
  · intro h1 h2
    rw [resolveFlipper_eq, if_neg h1, if_pos h2]
    simp [shaftContactUpdate]
  · intro h1 h2 h3
    rw [resolveFlipper_eq, if_neg h1, if_neg h2, if_pos h3]
    simp [pivotContactUpdate]

/-- Witness for the amended C3 theorem: the concrete shaft contact at
parameter 0 with the right flipper's base value. -/
theorem flipper_contact_scores_witness :
    ¬ tipHit c3Sqrt c3Flipper 1 0 c3Ball
    ∧ shaftHit c3Flipper 1 0 c3Ball
    ∧ (resolveFlipper c3Sqrt 0 c3Flipper 1 0 false (flipperBaseScore 1) (1/360) c3Ball).2.1
        = Int.floor ((flipperBaseScore 1 : ℚ)
            * (1/2 + (ClosestPointOnSegment c3Flipper.pivotPoint (flipperEndPos c3Flipper 1 0)
                ⟨c3Ball.x, c3Ball.y⟩).1 * (1/2))) :=
  ⟨by norm_num [tipHit, flipperEndPos, capRadius, c3Sqrt, c3Flipper, c3Ball],
   by norm_num [shaftHit, CircleSegmentCollision, ClosestPointOnSegment, clamp01,
      flipperEndPos, c3Flipper, c3Ball],
   (flipper_contact_scores c3Sqrt 0 c3Flipper 1 0 false 1 (1/360) c3Ball).2.1
     (by norm_num [tipHit, flipperEndPos, capRadius, c3Sqrt, c3Flipper, c3Ball])
     (by norm_num [shaftHit, CircleSegmentCollision, ClosestPointOnSegment, clamp01,
        flipperEndPos, c3Flipper, c3Ball])⟩

/-- Clamped parameters lie in the unit interval. -/
theorem clamp01_mem (p : ℚ) : 0 ≤ clamp01 p ∧ clamp01 p ≤ 1 := by
  unfold clamp01
  split_ifs <;> constructor <;> linarith

/-- Projection parameters returned by ClosestPointOnSegment lie in
the unit interval. -/
theorem closestParam_mem (A B P : Vec2f) :
    0 ≤ (ClosestPointOnSegment A B P).1 ∧ (ClosestPointOnSegment A B P).1 ≤ 1 := by
  unfold ClosestPointOnSegment
  dsimp only
  exact clamp01_mem _

/-- Both per-flipper base score values are positive. -/
theorem flipperBaseScore_pos (i : Fin 2) : 0 < flipperBaseScore i := by
  fin_cases i <;> norm_num [flipperBaseScore]

/-- Score increment of the flipper cascade: always nonnegative, and
strictly positive whenever a contact was resolved. -/
theorem flipper_delta_nonneg (sqrtq : ℚ → ℚ) (deg2rad : ℚ) (f : Flipper)
    (cosAngle sinAngle : ℚ) (active : Bool) (i : Fin 2) (dt : ℚ) (ball : Ball) :
    0 ≤ (resolveFlipper sqrtq deg2rad f cosAngle sinAngle active
          (flipperBaseScore i) dt ball).2.1
    ∧ ((resolveFlipper sqrtq deg2rad f cosAngle sinAngle active
          (flipperBaseScore i) dt ball).2.2 ≠ none →
       0 < (resolveFlipper sqrtq deg2rad f cosAngle sinAngle active
          (flipperBaseScore i) dt ball).2.1) := by
  rw [resolveFlipper_eq]
  split_ifs with h1 h2 h3
  · simp only [tipContactUpdate]
    exact ⟨le_of_lt (flipperBaseScore_pos i), fun _ => flipperBaseScore_pos i⟩
  · simp only [shaftContactUpdate]
    have hb : (10 : ℤ) ≤ flipperBaseScore i := by
      fin_cases i <;> norm_num [flipperBaseScore]
    have ht := (closestParam_mem f.pivotPoint (flipperEndPos f cosAngle sinAngle)
      ⟨ball.x, ball.y⟩).1
    have hbq : (10 : ℚ) ≤ (flipperBaseScore i : ℚ) := by exact_mod_cast hb
    have hval : (1 : ℚ) ≤ (flipperBaseScore i : ℚ)
        * (1/2 + (ClosestPointOnSegment f.pivotPoint (flipperEndPos f cosAngle sinAngle)
            ⟨ball.x, ball.y⟩).1 * (1/2)) := by nlinarith
    have hfl : (1 : ℤ) ≤ Int.floor ((flipperBaseScore i : ℚ)
        * (1/2 + (ClosestPointOnSegment f.pivotPoint (flipperEndPos f cosAngle sinAngle)
            ⟨ball.x, ball.y⟩).1 * (1/2))) := by
      rw [Int.le_floor]
      exact_mod_cast hval
    constructor
    · linarith
    · intro _
      linarith
  · simp only [pivotContactUpdate]
    have : 0 < flipperBaseScore i / 2 := by fin_cases i <;> norm_num [flipperBaseScore]
    exact ⟨le_of_lt this, fun _ => this⟩
  · exact ⟨le_refl 0, fun h => absurd rfl h⟩

/-- Score increment of a planet resolution: 5 on contact, 0 otherwise. -/
theorem planet_delta_cases (sqrtq : ℚ → ℚ) (planet : Planet) (ball : Ball) :
    (resolvePlanet sqrtq planet ball).2 = 0 ∨ (resolvePlanet sqrtq planet ball).2 = 5 := by
  unfold resolvePlanet
  dsimp only
  split_ifs <;> simp

/-- C10: every reachable score is nonnegative — the score starts at 0,
each resolved flipper contact adds a strictly positive integer, each
planet resolution adds 5 or nothing, and the drop check only ever
resets to exactly 0. -/
theorem score_nonneg_invariant :
    (∀ s : ℤ, ScoreReachable s → 0 ≤ s)
    ∧ (∀ (sqrtq : ℚ → ℚ) (deg2rad : ℚ) (f : Flipper) (cosAngle sinAngle : ℚ)
        (active : Bool) (i : Fin 2) (dt : ℚ) (ball : Ball),
        (resolveFlipper sqrtq deg2rad f cosAngle sinAngle active
          (flipperBaseScore i) dt ball).2.2 ≠ none →
        0 < (resolveFlipper sqrtq deg2rad f cosAngle sinAngle active
          (flipperBaseScore i) dt ball).2.1)
    ∧ (∀ (sqrtq : ℚ → ℚ) (planet : Planet) (ball : Ball),
        (resolvePlanet sqrtq planet ball).2 = 0 ∨ (resolvePlanet sqrtq planet ball).2 = 5) := by
  refine ⟨?_,
    fun sqrtq deg2rad f cosAngle sinAngle active i dt ball =>
      (flipper_delta_nonneg sqrtq deg2rad f cosAngle sinAngle active i dt ball).2,
    planet_delta_cases⟩
  intro s h
  induction h with
  | init => exact le_refl 0
  | flipperContact s sqrtq deg2rad f cosAngle sinAngle active i dt ball hprev ih =>
      exact add_nonneg ih
        (flipper_delta_nonneg sqrtq deg2rad f cosAngle sinAngle active i dt ball).1
  | planetContact s sqrtq planet ball hprev ih =>
      rcases planet_delta_cases sqrtq planet ball with h5 | h5 <;> rw [h5] <;> linarith
  | drop s ball hprev ih =>
      unfold dropCheck
      split_ifs
      · simp
      · simpa using ih

/-- Witness for the C10 theorem: the initial score, and a resolved
concrete shaft contact whose increment is positive. -/
theorem score_nonneg_invariant_witness :
    ScoreReachable 0
    ∧ (0 : ℤ) ≤ 0
    ∧ (resolveFlipper c3Sqrt 0 c3Flipper 1 0 false (flipperBaseScore 1) (1/360) c3Ball).2.2
        ≠ none
    ∧ 0 < (resolveFlipper c3Sqrt 0 c3Flipper 1 0 false
        (flipperBaseScore 1) (1/360) c3Ball).2.1 := by
  have hne : (resolveFlipper c3Sqrt 0 c3Flipper 1 0 false
      (flipperBaseScore 1) (1/360) c3Ball).2.2 ≠ none := by
    norm_num [resolveFlipper, tipHit, shaftHit, pivotHit, shaftContactUpdate,
      CircleSegmentCollision, ClosestPointOnSegment, clamp01, flipperEndPos, capRadius,
      c3Sqrt, c3Flipper, c3Ball, angularVelocity, ReflectVelocity, FLIPPER_BOUNCE_FACTOR,
      Option.some_ne_none, flipperBaseScore]
  exact ⟨ScoreReachable.init, score_nonneg_invariant.1 0 ScoreReachable.init, hne,
    score_nonneg_invariant.2.1 c3Sqrt 0 c3Flipper 1 0 false 1 (1/360) c3Ball hne⟩

/-- Closest point expressed through the projection parameter. -/
theorem closestPoint_snd_eq (A B P : Vec2f) :
    (ClosestPointOnSegment A B P).2
      = ⟨A.x + (B.x - A.x) * (ClosestPointOnSegment A B P).1,
         A.y + (B.y - A.y) * (ClosestPointOnSegment A B P).1⟩ := rfl

/-- Projection parameter written out explicitly. -/
theorem closestParam_eq (A B P : Vec2f) :
    (ClosestPointOnSegment A B P).1
      = clamp01 (
          if (B.x - A.x) * (B.x - A.x) + (B.y - A.y) * (B.y - A.y) > 1/100000000 then
            ((P.x - A.x) * (B.x - A.x) + (P.y - A.y) * (B.y - A.y))
              / ((B.x - A.x) * (B.x - A.x) + (B.y - A.y) * (B.y - A.y))
          else 0) := rfl

/-- Moving a parameter away from its clamped value by a nonnegative
multiple of the clamping defect does not change the clamped value. -/
theorem clamp01_scale (p s : ℚ) (hs : 0 ≤ s) :
    clamp01 (clamp01 p + s * (p - clamp01 p)) = clamp01 p := by
  by_cases hp1 : p < 0
  · have ht : clamp01 p = 0 := by
      unfold clamp01
      rw [if_pos hp1]
    rw [ht]
    have harg : (0 : ℚ) + s * (p - 0) = s * p := by ring
    rw [harg]
    have hsp : s * p ≤ 0 := by nlinarith
    unfold clamp01
    rcases lt_or_eq_of_le hsp with h | h
    · rw [if_pos h]
    · rw [if_neg (by linarith), if_neg (by linarith)]
      linarith
  · by_cases hp2 : p > 1
    · have ht : clamp01 p = 1 := by
        unfold clamp01
        rw [if_neg hp1, if_pos hp2]
      rw [ht]
      have hge : (1 : ℚ) ≤ 1 + s * (p - 1) := by nlinarith
      unfold clamp01
      rcases lt_or_eq_of_le hge with h | h
      · rw [if_neg (by linarith), if_pos h]
      · rw [if_neg (by linarith), if_neg (by linarith)]
        linarith
    · have ht : clamp01 p = p := by
        unfold clamp01
        rw [if_neg hp1, if_neg hp2]
      rw [ht]
      have harg : p + s * (p - p) = p := by ring
      rw [harg]
      exact ht

/-- Pushing a point outward from its closest segment point, along the
ray from that closest point through the point, does not change the
projection parameter. -/
theorem closestParam_scale (A B : Vec2f) (Px Py s : ℚ) (hs : 0 ≤ s) :
    (ClosestPointOnSegment A B
        ⟨(ClosestPointOnSegment A B ⟨Px, Py⟩).2.x
            + s * (Px - (ClosestPointOnSegment A B ⟨Px, Py⟩).2.x),
         (ClosestPointOnSegment A B ⟨Px, Py⟩).2.y
            + s * (Py - (ClosestPointOnSegment A B ⟨Px, Py⟩).2.y)⟩).1
      = (ClosestPointOnSegment A B ⟨Px, Py⟩).1 := by
  simp only [closestPoint_snd_eq, closestParam_eq]
  by_cases hL : (B.x - A.x) * (B.x - A.x) + (B.y - A.y) * (B.y - A.y) > 1/100000000
  · simp only [if_pos hL]
    have hL0 : (B.x - A.x) * (B.x - A.x) + (B.y - A.y) * (B.y - A.y) ≠ 0 := by
      have : (0 : ℚ) < (B.x - A.x) * (B.x - A.x) + (B.y - A.y) * (B.y - A.y) := by
        linarith [hL]
      exact ne_of_gt this
    set c := clamp01 (((Px - A.x) * (B.x - A.x) + (Py - A.y) * (B.y - A.y))
      / ((B.x - A.x) * (B.x - A.x) + (B.y - A.y) * (B.y - A.y))) with hc
    have harg :
        ((A.x + (B.x - A.x) * c + s * (Px - (A.x + (B.x - A.x) * c)) - A.x) * (B.x - A.x)
          + (A.y + (B.y - A.y) * c + s * (Py - (A.y + (B.y - A.y) * c)) - A.y) * (B.y - A.y))
            / ((B.x - A.x) * (B.x - A.x) + (B.y - A.y) * (B.y - A.y))
          = c + s * (((Px - A.x) * (B.x - A.x) + (Py - A.y) * (B.y - A.y))
              / ((B.x - A.x) * (B.x - A.x) + (B.y - A.y) * (B.y - A.y)) - c) := by
      field_simp
      ring
    rw [harg, hc]
    exact clamp01_scale _ s hs
  · simp only [if_neg hL]

/-- Pushing a point outward from its closest segment point, along the
ray from that closest point through the point, does not change the
closest point. -/
theorem closestPoint_scale (A B : Vec2f) (Px Py s : ℚ) (hs : 0 ≤ s) :
    (ClosestPointOnSegment A B
        ⟨(ClosestPointOnSegment A B ⟨Px, Py⟩).2.x
            + s * (Px - (ClosestPointOnSegment A B ⟨Px, Py⟩).2.x),
         (ClosestPointOnSegment A B ⟨Px, Py⟩).2.y
            + s * (Py - (ClosestPointOnSegment A B ⟨Px, Py⟩).2.y)⟩).2
      = (ClosestPointOnSegment A B ⟨Px, Py⟩).2 := by
  have h1 := closestParam_scale A B Px Py s hs
  calc (ClosestPointOnSegment A B
        ⟨(ClosestPointOnSegment A B ⟨Px, Py⟩).2.x
            + s * (Px - (ClosestPointOnSegment A B ⟨Px, Py⟩).2.x),
         (ClosestPointOnSegment A B ⟨Px, Py⟩).2.y
            + s * (Py - (ClosestPointOnSegment A B ⟨Px, Py⟩).2.y)⟩).2
      = ⟨A.x + (B.x - A.x) * (ClosestPointOnSegment A B
            ⟨(ClosestPointOnSegment A B ⟨Px, Py⟩).2.x
                + s * (Px - (ClosestPointOnSegment A B ⟨Px, Py⟩).2.x),
             (ClosestPointOnSegment A B ⟨Px, Py⟩).2.y
                + s * (Py - (ClosestPointOnSegment A B ⟨Px, Py⟩).2.y)⟩).1,
         A.y + (B.y - A.y) * (ClosestPointOnSegment A B
            ⟨(ClosestPointOnSegment A B ⟨Px, Py⟩).2.x
                + s * (Px - (ClosestPointOnSegment A B ⟨Px, Py⟩).2.x),
             (ClosestPointOnSegment A B ⟨Px, Py⟩).2.y
                + s * (Py - (ClosestPointOnSegment A B ⟨Px, Py⟩).2.y)⟩).1⟩ :=
        closestPoint_snd_eq A B _
    _ = ⟨A.x + (B.x - A.x) * (ClosestPointOnSegment A B ⟨Px, Py⟩).1,
         A.y + (B.y - A.y) * (ClosestPointOnSegment A B ⟨Px, Py⟩).1⟩ := by rw [h1]
    _ = (ClosestPointOnSegment A B ⟨Px, Py⟩).2 := (closestPoint_snd_eq A B _).symm

/-- C4 (amended): provided the ball center is at distance at least 1e-5
from its closest segment point (the square root value is exact and at
least the epsilon floor), SeparateCircleFromSegment leaves the ball at
squared distance at least radius² from the segment — distance at least
the radius, hence certainly at least radius − ε. Without that margin the
epsilon-floored normal is shorter than a unit vector and the guard can
leave the ball penetrating (see the counterexample). -/
theorem separate_circle_separates (sqrtq : ℚ → ℚ) (ball : Ball) (A B : Vec2f)
    (hrad : 0 ≤ ball.radius)
    (hsq : sqrtq (distSqToSegment A B ⟨ball.x, ball.y⟩)
        * sqrtq (distSqToSegment A B ⟨ball.x, ball.y⟩)
      = distSqToSegment A B ⟨ball.x, ball.y⟩)
    (hmin : 1/100000 ≤ sqrtq (distSqToSegment A B ⟨ball.x, ball.y⟩)) :
    ball.radius * ball.radius
      ≤ distSqToSegment A B
          ⟨(SeparateCircleFromSegment sqrtq ball A B).x,
           (SeparateCircleFromSegment sqrtq ball A B).y⟩ := by
  have hfloor : ¬ (sqrtq (distSqToSegment A B ⟨ball.x, ball.y⟩) < 1/100000) :=
    not_lt.mpr hmin
  have hdpos : (0 : ℚ) < sqrtq (distSqToSegment A B ⟨ball.x, ball.y⟩) :=
    lt_of_lt_of_le (by norm_num) hmin
  have hargeq : (ball.x - (ClosestPointOnSegment A B ⟨ball.x, ball.y⟩).2.x)
        * (ball.x - (ClosestPointOnSegment A B ⟨ball.x, ball.y⟩).2.x)
      + (ball.y - (ClosestPointOnSegment A B ⟨ball.x, ball.y⟩).2.y)
        * (ball.y - (ClosestPointOnSegment A B ⟨ball.x, ball.y⟩).2.y)
      = distSqToSegment A B ⟨ball.x, ball.y⟩ := rfl
  have hdist_pt : ∀ P : Vec2f, distSqToSegment A B P
      = (P.x - (ClosestPointOnSegment A B P).2.x)
          * (P.x - (ClosestPointOnSegment A B P).2.x)
        + (P.y - (ClosestPointOnSegment A B P).2.y)
          * (P.y - (ClosestPointOnSegment A B P).2.y) := fun P => rfl
  unfold SeparateCircleFromSegment
  dsimp only
  rw [hargeq, if_neg hfloor]
  by_cases hpen : sqrtq (distSqToSegment A B ⟨ball.x, ball.y⟩) < ball.radius
  · rw [if_pos hpen]
    dsimp only
    have e1 : (ball.x - (ClosestPointOnSegment A B ⟨ball.x, ball.y⟩).2.x)
          / sqrtq (distSqToSegment A B ⟨ball.x, ball.y⟩) * ball.radius
        = ball.radius / sqrtq (distSqToSegment A B ⟨ball.x, ball.y⟩)
          * (ball.x - (ClosestPointOnSegment A B ⟨ball.x, ball.y⟩).2.x) := by ring
    have e2 : (ball.y - (ClosestPointOnSegment A B ⟨ball.x, ball.y⟩).2.y)
          / sqrtq (distSqToSegment A B ⟨ball.x, ball.y⟩) * ball.radius
        = ball.radius / sqrtq (distSqToSegment A B ⟨ball.x, ball.y⟩)
          * (ball.y - (ClosestPointOnSegment A B ⟨ball.x, ball.y⟩).2.y) := by ring
    rw [e1, e2]
    rw [hdist_pt]
    rw [closestPoint_scale A B ball.x ball.y
      (ball.radius / sqrtq (distSqToSegment A B ⟨ball.x, ball.y⟩))
      (div_nonneg hrad (le_of_lt hdpos))]
    dsimp only
    have hfin : ((ClosestPointOnSegment A B ⟨ball.x, ball.y⟩).2.x
            + ball.radius / sqrtq (distSqToSegment A B ⟨ball.x, ball.y⟩)
              * (ball.x - (ClosestPointOnSegment A B ⟨ball.x, ball.y⟩).2.x)
          - (ClosestPointOnSegment A B ⟨ball.x, ball.y⟩).2.x)
          * ((ClosestPointOnSegment A B ⟨ball.x, ball.y⟩).2.x
            + ball.radius / sqrtq (distSqToSegment A B ⟨ball.x, ball.y⟩)
              * (ball.x - (ClosestPointOnSegment A B ⟨ball.x, ball.y⟩).2.x)
          - (ClosestPointOnSegment A B ⟨ball.x, ball.y⟩).2.x)
        + ((ClosestPointOnSegment A B ⟨ball.x, ball.y⟩).2.y
            + ball.radius / sqrtq (distSqToSegment A B ⟨ball.x, ball.y⟩)
              * (ball.y - (ClosestPointOnSegment A B ⟨ball.x, ball.y⟩).2.y)
          - (ClosestPointOnSegment A B ⟨ball.x, ball.y⟩).2.y)
          * ((ClosestPointOnSegment A B ⟨ball.x, ball.y⟩).2.y
            + ball.radius / sqrtq (distSqToSegment A B ⟨ball.x, ball.y⟩)
              * (ball.y - (ClosestPointOnSegment A B ⟨ball.x, ball.y⟩).2.y)
          - (ClosestPointOnSegment A B ⟨ball.x, ball.y⟩).2.y)
        = (ball.radius / sqrtq (distSqToSegment A B ⟨ball.x, ball.y⟩))
          * (ball.radius / sqrtq (distSqToSegment A B ⟨ball.x, ball.y⟩))
          * ((ball.x - (ClosestPointOnSegment A B ⟨ball.x, ball.y⟩).2.x)
              * (ball.x - (ClosestPointOnSegment A B ⟨ball.x, ball.y⟩).2.x)
            + (ball.y - (ClosestPointOnSegment A B ⟨ball.x, ball.y⟩).2.y)
              * (ball.y - (ClosestPointOnSegment A B ⟨ball.x, ball.y⟩).2.y)) := by
      ring
    rw [hfin, hargeq]
    have habs : ∀ d D r : ℚ, 0 < d → d * d = D → r / d * (r / d) * D = r * r := by
      intro d D r hd hdd
      rw [← hdd]
      field_simp
    exact le_of_eq (habs (sqrtq (distSqToSegment A B ⟨ball.x, ball.y⟩))
      (distSqToSegment A B ⟨ball.x, ball.y⟩) ball.radius hdpos hsq).symm
  · rw [if_neg hpen]
    rw [← hsq]
    nlinarith [not_lt.mp hpen, hrad]

/-- Concrete degenerate ball for the C4 counterexample: its center lies
exactly on the segment. -/
def c4DegBall : Ball := ⟨50, 0, 14, 0, 0⟩

/-- C4 counterexample: a ball whose center lies exactly on the segment
(the float square root of 0 is exactly 0) is left at distance 0 from
the segment by SeparateCircleFromSegment — far below its radius 14
minus any negligible epsilon — because the epsilon-floored distance
yields a zero normal. -/
theorem separate_degenerate_leaves_penetration :
    distSqToSegment ⟨0, 0⟩ ⟨100, 0⟩
        ⟨(SeparateCircleFromSegment (fun _ => 0) c4DegBall ⟨0, 0⟩ ⟨100, 0⟩).x,
         (SeparateCircleFromSegment (fun _ => 0) c4DegBall ⟨0, 0⟩ ⟨100, 0⟩).y⟩ = 0
    ∧ c4DegBall.radius = 14 := by
  norm_num [SeparateCircleFromSegment, ClosestPointOnSegment, clamp01, distSqToSegment,
    c4DegBall]

/-- Concrete penetrating ball for the C4 witness: at distance 3 from
the segment with radius 5. -/
def c4Ball : Ball := ⟨5, 3, 5, 0, 0⟩

/-- Concrete square root for the C4 witness: the squared distance 9 has
exact root 3. -/
def c4Sqrt : ℚ → ℚ := fun q => if q = 9 then 3 else 0

/-- Witness for the amended C4 theorem at a concrete penetrating ball. -/
theorem separate_circle_separates_witness :
    (0 : ℚ) ≤ c4Ball.radius
    ∧ c4Sqrt (distSqToSegment ⟨0, 0⟩ ⟨10, 0⟩ ⟨c4Ball.x, c4Ball.y⟩)
        * c4Sqrt (distSqToSegment ⟨0, 0⟩ ⟨10, 0⟩ ⟨c4Ball.x, c4Ball.y⟩)
      = distSqToSegment ⟨0, 0⟩ ⟨10, 0⟩ ⟨c4Ball.x, c4Ball.y⟩
    ∧ 1/100000 ≤ c4Sqrt (distSqToSegment ⟨0, 0⟩ ⟨10, 0⟩ ⟨c4Ball.x, c4Ball.y⟩)
    ∧ c4Ball.radius * c4Ball.radius
        ≤ distSqToSegment ⟨0, 0⟩ ⟨10, 0⟩
            ⟨(SeparateCircleFromSegment c4Sqrt c4Ball ⟨0, 0⟩ ⟨10, 0⟩).x,
             (SeparateCircleFromSegment c4Sqrt c4Ball ⟨0, 0⟩ ⟨10, 0⟩).y⟩ :=
  ⟨by norm_num [c4Ball],
   by norm_num [c4Sqrt, distSqToSegment, ClosestPointOnSegment, clamp01, c4Ball],
   by norm_num [c4Sqrt, distSqToSegment, ClosestPointOnSegment, clamp01, c4Ball],
   separate_circle_separates c4Sqrt c4Ball ⟨0, 0⟩ ⟨10, 0⟩
     (by norm_num [c4Ball])
     (by norm_num [c4Sqrt, distSqToSegment, ClosestPointOnSegment, clamp01, c4Ball])
     (by norm_num [c4Sqrt, distSqToSegment, ClosestPointOnSegment, clamp01, c4Ball])⟩

end Pinball
